import Mathlib

/-!
Verification of the MSIKLM daemon (`src/main-daemon.c`) against its
natural-language specification.

The C program is shallowly embedded: machine integers become `Nat` with
explicit reduction modulo `2 ^ 64` (the width of `unsigned long`) or
modulo `256` (`unsigned char`) where C overflow semantics matter; the
external device driver (`msiklm.h`: `open_keyboard`, `set_color`,
`set_mode`, `hid_close`) is an external collaborator observed only
through per-call success/failure, so it is represented by an oracle of
boolean streams, exactly the contract in §4.4 of the spec.  The main
monitor loop is embedded as a fuel-indexed step function over an
explicit state record that also logs the externally visible calls as an
event trace.  The floating-point load-to-saturation expression
`roundf(sqrtf(ratio) * 255.f)` is idealised over the reals.
-/

namespace Msiklm

/-- `2 ^ 64`, the modulus of C `unsigned long` arithmetic on the target. -/
def UL : Nat := 2 ^ 64

/-- C `unsigned long` subtraction `a - b`: wraps modulo `2 ^ 64`
(for representable inputs `a b < 2 ^ 64`). -/
def usub (a b : Nat) : Nat := (a + UL - b) % UL

/-- `struct stat_entry`: the ten cumulative cpu counters read from
`/proc/stat` (each an `unsigned long`, hence `< 2 ^ 64`). -/
structure stat_entry where
  user : Nat
  nice : Nat
  sys : Nat
  idle : Nat
  iowait : Nat
  irq : Nat
  softirq : Nat
  steal : Nat
  guest : Nat
  guest_nice : Nat
deriving DecidableEq

/-- The all-zero sample. -/
def zeroStat : stat_entry := ⟨0, 0, 0, 0, 0, 0, 0, 0, 0, 0⟩

/-- `stat_entry_calc_delta`: field-wise unsigned subtraction `curr - prev`,
then `usage = d_us + d_ni + d_sy` and `total` the sum of all ten deltas,
all in wrapping `unsigned long` arithmetic.  The function performs no
`curr < prev` regression check. -/
def stat_entry_calc_delta (curr prev : stat_entry) : Nat × Nat :=
  let d_us := usub curr.user prev.user
  let d_ni := usub curr.nice prev.nice
  let d_sy := usub curr.sys prev.sys
  let d_id := usub curr.idle prev.idle
  let d_io := usub curr.iowait prev.iowait
  let d_hi := usub curr.irq prev.irq
  let d_si := usub curr.softirq prev.softirq
  let d_st := usub curr.steal prev.steal
  let d_gu := usub curr.guest prev.guest
  let d_gn := usub curr.guest_nice prev.guest_nice
  ((d_us + d_ni + d_sy) % UL,
   (d_us + d_ni + d_sy + d_id + d_io + d_hi + d_si + d_st + d_gu + d_gn) % UL)

/-- `hsv_color_t`: three `unsigned char` channels (all uses keep them ≤ 255). -/
structure hsv_color where
  h : Nat
  s : Nat
  v : Nat
deriving DecidableEq

/-- `rgb_color_t`: three `unsigned char` channels. -/
structure rgb_color where
  r : Nat
  g : Nat
  b : Nat
deriving DecidableEq

/-- `hsv2rgb`: saturation 0 maps to gray `(v,v,v)`; otherwise
`region = h / 43`, `remainder = (h - region*43) * 6`, the fixed-point
intermediates `p q t` use `>> 8` (here `/ 256`), and a 6-way `switch` on
`region` in which cases 0–4 are explicit and everything else takes the
`default` arm `(v, p, q)`.  All intermediates are computed in C `int`
arithmetic and fit in 8 bits for 8-bit inputs, so `Nat` arithmetic is
exact. -/
def hsv2rgb (hsv : hsv_color) : rgb_color :=
  if hsv.s = 0 then ⟨hsv.v, hsv.v, hsv.v⟩
  else
    let region := hsv.h / 43
    let remainder := (hsv.h - region * 43) * 6
    let p := (hsv.v * (255 - hsv.s)) / 256
    let q := (hsv.v * (255 - (hsv.s * remainder) / 256)) / 256
    let t := (hsv.v * (255 - (hsv.s * (255 - remainder)) / 256)) / 256
    if region = 0 then ⟨hsv.v, t, p⟩
    else if region = 1 then ⟨q, hsv.v, p⟩
    else if region = 2 then ⟨p, hsv.v, t⟩
    else if region = 3 then ⟨p, q, hsv.v⟩
    else if region = 4 then ⟨t, p, hsv.v⟩
    else ⟨hsv.v, p, q⟩

/-- The compile-time initial value of the global `hue` variable. -/
def hue_default : Nat := 20

/-- The `case 'c':` body of `parse_args`.  At that point the local `c`
holds getopt's return value, the character code of the matched option,
i.e. `'c' = 99`; the clamp `if (c > 255) c = 255; else if (c < 0) c = 0;`
is applied to `c`, not to `col`, and is therefore dead code.  The store
`hue = (unsigned char)col` reduces `col` modulo 256 (C conversion to
`unsigned char`). -/
def parse_color_case (col : Int) : Nat :=
  let c : Int := 99
  let _dead := if c > 255 then (255 : Int) else if c < 0 then 0 else c
  (col % 256).toNat

/-- Modelled from the spec: `-c <hue>` "set hue in [0,255] (values
outside range are clamped)" — the clamping behaviour §6 prescribes, for
comparison with `parse_color_case`. -/
def parse_color_spec (col : Int) : Nat :=
  if col > 255 then 255 else if col < 0 then 0 else col.toNat

/-- `read_proc_stat`'s failure handling: if `fscanf` returns a negative
count the process is terminated by `exit(EXIT_FAILURE)`, i.e. status 1;
otherwise the sample read proceeds. -/
def read_proc_stat_result (fscanf_ret : Int) : Except Int Unit :=
  if fscanf_ret < 0 then Except.error 1 else Except.ok ()

/-- The saturation of step `dir` of `blink_test`:
`sat = (dir & 1) ? 255 : 0` followed by `s = dir ? 255 - sat : sat`. -/
def blink_sat (dir : Nat) : Nat :=
  let sat := if dir % 2 = 1 then 255 else 0
  if dir = 0 then sat else 255 - sat

/-- Externally visible calls made by `blink_test`. -/
inductive BEv where
  | set_color (zone : Nat) (c : rgb_color)
  | pause_ms (ms : Nat)
deriving DecidableEq

/-- The inner zone loop of `blink_test`:
`for (i = 0; i < 3 && ret == 0; ++i) if (set_color(...) <= 0) ret = -1;`
— `ok` is the success stream of the `set_color` calls (indexed by call
count), `c` the dispatched color; the accumulator is
(call index, `ret`, event trace). -/
def blinkDispatch (ok : Nat → Bool) (c : rgb_color) :
    Nat → Nat × Int × List BEv → Nat × Int × List BEv
  | 0, acc => acc
  | n + 1, (idx, ret, evs) =>
    if ret = 0 then
      blinkDispatch ok c n
        (idx + 1, if ok idx then ret else -1, evs ++ [BEv.set_color (3 - n) c])
    else (idx, ret, evs)

/-- One step of the `blink_test` sweep: build the HSV color at the
configured hue with saturation `blink_sat dir` and value 255, convert
with `hsv2rgb`, dispatch to the 3 zones, then `nanosleep` 500 ms. -/
def blinkStep (ok : Nat → Bool) (hue dir : Nat)
    (acc : Nat × Int × List BEv) : Nat × Int × List BEv :=
  let c := hsv2rgb ⟨hue, blink_sat dir, 255⟩
  let r := blinkDispatch ok c 3 acc
  (r.1, r.2.1, r.2.2 ++ [BEv.pause_ms 500])

/-- `blink_test` (after a successful `open_keyboard` and the `set_mode`
call): the 8-step sweep `dir = 0..7`, returning the final `ret` and the
trace of dispatches and pauses. -/
def blink_test (ok : Nat → Bool) (hue : Nat) : Int × List BEv :=
  let r := (List.range 8).foldl (fun acc dir => blinkStep ok hue dir acc) (0, 0, [])
  (r.2.1, r.2.2)

/-- Externally visible calls made by the daemon path of `main`. -/
inductive Ev where
  | read_stat (idx : Nat)
  | open_kb (ok : Bool)
  | set_mode (devOk : Bool)
  | div (usage total : Nat)
  | set_color (devOk : Bool) (zone usage total : Nat)
  | retry_start (counter : Nat)
  | hid_close (devOk : Bool)
deriving DecidableEq

/-- Modelled from the spec (§4.4): the DeviceActuator collaborator and
the sampling/signal environment, observed only through per-call results.
`openOk n` is the result of the n-th `open_keyboard` call, `setColorOk n`
of the n-th `set_color` call, `sample n` the n-th `/proc/stat` reading,
and `running n` the value of the `daemon_running` flag at the n-th
evaluation of the loop condition. -/
structure Oracle where
  openOk : Nat → Bool
  setColorOk : Nat → Bool
  sample : Nat → stat_entry
  running : Nat → Bool

/-- The mutable state of `main`'s monitor loop, plus bookkeeping indices
into the oracle streams and the trace of external calls so far. -/
structure LoopState where
  dev : Bool
  ret : Int
  timeout : Nat
  nOpen : Nat
  nColor : Nat
  checks : Nat
  sampleIdx : Nat
  prev : stat_entry
  evs : List Ev
deriving DecidableEq

/-- The zone dispatch loop of a tick:
`for (i = 0; i < num_regions && ret == 0; ++i) if (set_color(dev, colors, i+1, br) <= 0) ret = -1;`
with `num_regions = 3`; the argument counts the remaining zones (zone
number `3 - n` when `n + 1` remain).  The dispatched color is
`hsv2rgb ⟨hue, roundf(sqrtf(u/t)*255), 255⟩`; the trace records the delta
pair `(u, t)` it is derived from. -/
def dispatchZones (o : Oracle) (u t : Nat) : Nat → LoopState → LoopState
  | 0, s => s
  | n + 1, s =>
    if s.ret = 0 then
      dispatchZones o u t n
        { s with nColor := s.nColor + 1,
                 ret := if o.setColorOk s.nColor then s.ret else -1,
                 evs := s.evs ++ [Ev.set_color s.dev (3 - n) u t] }
    else s

/-- The reopen loop of the retry block:
`while (!dev && timeout) { syslog(retry); sleep(1); dev = open_keyboard(); timeout--; }`
— structural on the current value of `timeout` (the first argument, kept
equal to `s.timeout`). -/
def retryAux (o : Oracle) : Nat → LoopState → LoopState
  | 0, s => s
  | t + 1, s =>
    if s.dev then s
    else
      retryAux o t
        { s with dev := o.openOk s.nOpen, nOpen := s.nOpen + 1, timeout := t,
                 evs := s.evs ++ [Ev.open_kb (o.openOk s.nOpen)] }

/-- The `if (ret)` retry block of a tick: log the `set_color` failure
(recorded as `retry_start` together with the current counter value),
`hid_close(dev)`, one immediate `open_keyboard`, then the bounded reopen
loop; if a reopen succeeded, `ret = 0`. -/
def retryBlock (o : Oracle) (s : LoopState) : LoopState :=
  let s₁ := { s with evs := s.evs ++ [Ev.retry_start s.timeout, Ev.hid_close s.dev] }
  let s₂ := { s₁ with dev := o.openOk s₁.nOpen, nOpen := s₁.nOpen + 1,
                      evs := s₁.evs ++ [Ev.open_kb (o.openOk s₁.nOpen)] }
  let s₃ := retryAux o s₂.timeout s₂
  if s₃.dev then { s₃ with ret := 0 } else s₃

/-- One iteration of the `while (daemon_running && !ret)` body:
`read_proc_stat(&stat_curr)`, delta computation, the unconditional float
division `ratio = use / tot` (recorded as `Ev.div use tot`), saturation
and `hsv2rgb`, the zone dispatch loop, the retry block when a dispatch
failed, and finally `stat_prev = stat_curr` (the 1-second sleep carries
no state). -/
def tickBody (o : Oracle) (s : LoopState) : LoopState :=
  let curr := o.sample s.sampleIdx
  let d := stat_entry_calc_delta curr s.prev
  let s₁ := { s with sampleIdx := s.sampleIdx + 1,
                     evs := s.evs ++ [Ev.read_stat s.sampleIdx, Ev.div d.1 d.2] }
  let s₂ := dispatchZones o d.1 d.2 3 s₁
  let s₃ := if s₂.ret = 0 then s₂ else retryBlock o s₂
  { s₃ with prev := curr }

/-- The monitor loop, fuel-indexed: each step evaluates the condition
`daemon_running && !ret` once (consuming one entry of the `running`
stream) and either runs a tick body or exits with the current state;
`none` means the fuel ran out before the loop exited. -/
def runLoop (o : Oracle) : Nat → LoopState → Option LoopState
  | 0, _ => none
  | f + 1, s =>
    if o.running s.checks = true ∧ s.ret = 0 then
      runLoop o f (tickBody o { s with checks := s.checks + 1 })
    else some { s with checks := s.checks + 1 }

/-- The state of `main`'s daemon path just before the monitor loop:
`read_proc_stat(&stat_prev)` (sample 0), `dev = open_keyboard()` (call 0),
`ret = 1` when the open failed, `set_mode(dev, md)` unconditionally, and
`timeout = 10`. -/
def initLoopState (o : Oracle) : LoopState :=
  { dev := o.openOk 0,
    ret := if o.openOk 0 then 0 else 1,
    timeout := 10,
    nOpen := 1,
    nColor := 0,
    checks := 0,
    sampleIdx := 1,
    prev := o.sample 0,
    evs := [Ev.read_stat 0, Ev.open_kb (o.openOk 0), Ev.set_mode (o.openOk 0)] }

/-- `main`'s daemon path from the first `/proc/stat` read to `return ret`:
run the loop, then `hid_close(dev)` and return `ret` with the full
trace (`none` when the fuel did not reach loop exit). -/
def mainDaemon (o : Oracle) (fuel : Nat) : Option (Int × List Ev) :=
  (runLoop o fuel (initLoopState o)).map fun s => (s.ret, s.evs ++ [Ev.hid_close s.dev])

/-- The trace of a completed daemon run. -/
def eventsOfD : Option (Int × List Ev) → List Ev
  | none => []
  | some p => p.2

/-- Number of `open_keyboard` calls in a trace. -/
def countOpens (evs : List Ev) : Nat :=
  evs.countP fun e => match e with
    | Ev.open_kb _ => true
    | _ => false

/-- The retry-counter values observed at the start of each retry episode
of a trace, in order. -/
def episodeStarts (evs : List Ev) : List Nat :=
  evs.filterMap fun e => match e with
    | Ev.retry_start t => some t
    | _ => none

/-- The load-to-saturation map of the tick body,
`roundf(sqrtf(ratio) * 255.f)`, idealised over the reals. -/
noncomputable def load_to_saturation (ratio : ℝ) : ℤ :=
  round (Real.sqrt ratio * 255)

/-- Environment in which the initial `open_keyboard` fails and never
recovers. -/
def oOpenFail : Oracle :=
  { openOk := fun _ => false, setColorOk := fun _ => false,
    sample := fun _ => zeroStat, running := fun _ => true }

/-- Environment in which everything succeeds and the termination signal
is already observed at the first loop-condition check. -/
def oSuccess : Oracle :=
  { openOk := fun _ => true, setColorOk := fun _ => true,
    sample := fun _ => zeroStat, running := fun _ => false }

/-- Environment in which the startup open succeeds, the first `set_color`
of the first tick fails, and every reopen attempt fails. -/
def oExhaust : Oracle :=
  { openOk := fun n => n == 0, setColorOk := fun _ => false,
    sample := fun _ => zeroStat, running := fun _ => true }

/-- Environment producing two retry episodes: in tick 0 the dispatch
fails, the immediate reopen (call 1) and the first counted reopen
(call 2) fail, the second counted reopen (call 3) succeeds; in tick 1
the dispatch fails again and the immediate reopen (call 4) succeeds. -/
def oC2 : Oracle :=
  { openOk := fun n => !(n == 1 || n == 2),
    setColorOk := fun n => !(n == 0 || n == 1),
    sample := fun _ => zeroStat, running := fun n => n < 2 }

/-- Earlier sample for the counter-regression run: `user = 10`. -/
def statPrevC1 : stat_entry := ⟨10, 0, 0, 20, 0, 0, 0, 0, 0, 0⟩

/-- Later sample for the counter-regression run: `user` dropped to 5
(a counter reset), `idle` advanced to 50. -/
def statCurrC1 : stat_entry := ⟨5, 0, 0, 50, 0, 0, 0, 0, 0, 0⟩

/-- Environment for the counter-regression run: one tick comparing
`statCurrC1` against `statPrevC1`, all device calls succeeding. -/
def oC1 : Oracle :=
  { openOk := fun _ => true, setColorOk := fun _ => true,
    sample := fun n => if n == 0 then statPrevC1 else statCurrC1,
    running := fun n => n == 0 }

/-- A fixed sample; two consecutive reads of it give an all-zero delta. -/
def statC4 : stat_entry := ⟨100, 0, 50, 850, 0, 0, 0, 0, 0, 0⟩

/-- Environment for the zero-total run: the cpu counters do not advance
between the initial read and tick 0. -/
def oC4 : Oracle :=
  { openOk := fun _ => true, setColorOk := fun _ => true,
    sample := fun _ => statC4, running := fun n => n == 0 }

/-- The loop state after the single condition check of a run in which
the initial open failed (the loop body is never entered). -/
def sOpenFailFinal : LoopState :=
  { dev := false, ret := 1, timeout := 10, nOpen := 1, nColor := 0,
    checks := 1, sampleIdx := 1, prev := zeroStat,
    evs := [Ev.read_stat 0, Ev.open_kb false, Ev.set_mode false] }

/-- The saturation sequence `blink_test` actually dispatches. -/
def blinkActualSats : List Nat := [0, 0, 255, 0, 255, 0, 255, 0]

/-- The externally visible calls of one `blink_test` step with
saturation `s`: the color at the default hue dispatched to the three
zones, then the 500 ms pause. -/
def blinkStepEvents (s : Nat) : List BEv :=
  [BEv.set_color 1 (hsv2rgb ⟨hue_default, s, 255⟩),
   BEv.set_color 2 (hsv2rgb ⟨hue_default, s, 255⟩),
   BEv.set_color 3 (hsv2rgb ⟨hue_default, s, 255⟩),
   BEv.pause_ms 500]

/-- Sanity check of the delta embedding on the worked example of spec
§8: `busy = 30`, `total = 50`. -/
theorem delta_spec_example :
    stat_entry_calc_delta ⟨120, 0, 60, 870, 0, 0, 0, 0, 0, 0⟩
      ⟨100, 0, 50, 850, 0, 0, 0, 0, 0, 0⟩ = (30, 50) := by decide

/-- The zone dispatch loop never touches the retry counter. -/
theorem dispatchZones_timeout (o : Oracle) (u t : Nat) :
    ∀ (n : Nat) (s : LoopState), (dispatchZones o u t n s).timeout = s.timeout := by
  intro n
  induction n with
  | zero => intro s; rfl
  | succ n ih =>
    intro s
    simp only [dispatchZones]
    split
    · rw [ih]
    · rfl

/-- The reopen loop only ever decreases the retry counter: started with
`s.timeout = t`, it finishes with a counter at most `s.timeout`. -/
theorem retryAux_timeout (o : Oracle) :
    ∀ (t : Nat) (s : LoopState), s.timeout = t →
      (retryAux o t s).timeout ≤ s.timeout := by
  intro t
  induction t with
  | zero => intro s h; exact le_rfl
  | succ t ih =>
    intro s h
    simp only [retryAux]
    split
    · exact le_rfl
    · have h2 := ih { s with dev := o.openOk s.nOpen, nOpen := s.nOpen + 1,
                             timeout := t,
                             evs := s.evs ++ [Ev.open_kb (o.openOk s.nOpen)] } rfl
      have h3 : t ≤ s.timeout := by omega
      exact le_trans h2 h3

/-- The retry block never increases the retry counter. -/
theorem retryBlock_timeout (o : Oracle) (s : LoopState) :
    (retryBlock o s).timeout ≤ s.timeout := by
  unfold retryBlock
  dsimp only
  split
  · exact retryAux_timeout o _ _ rfl
  · exact retryAux_timeout o _ _ rfl

/-- A tick body never increases the retry counter. -/
theorem tickBody_timeout (o : Oracle) (s : LoopState) :
    (tickBody o s).timeout ≤ s.timeout := by
  unfold tickBody
  dsimp only
  split
  · exact le_of_eq (dispatchZones_timeout o _ _ 3 _)
  · exact le_trans (retryBlock_timeout o _) (le_of_eq (dispatchZones_timeout o _ _ 3 _))

/-- Across any completed stretch of the monitor loop the retry counter
never increases: it is never reset to its initial bound. -/
theorem runLoop_timeout (o : Oracle) :
    ∀ (f : Nat) (s s' : LoopState), runLoop o f s = some s' →
      s'.timeout ≤ s.timeout := by
  intro f
  induction f with
  | zero => intro s s' h; exact absurd h (by simp [runLoop])
  | succ f ih =>
    intro s s' h
    simp only [runLoop] at h
    split at h
    · exact le_trans (ih _ _ h) (tickBody_timeout o _)
    · simp only [Option.some.injEq] at h
      subst h
      exact le_rfl

/-- The reopen loop makes at most `t` further `open_keyboard` calls. -/
theorem retryAux_nOpen (o : Oracle) :
    ∀ (t : Nat) (s : LoopState), (retryAux o t s).nOpen ≤ s.nOpen + t := by
  intro t
  induction t with
  | zero => intro s; simp [retryAux]
  | succ t ih =>
    intro s
    simp only [retryAux]
    split
    · omega
    · refine le_trans (ih _) ?_
      show s.nOpen + 1 + t ≤ s.nOpen + (t + 1)
      omega

/-- One retry block makes at most `1 + timeout` `open_keyboard` calls:
the immediate reopen plus the counter-bounded loop. -/
theorem retryBlock_nOpen (o : Oracle) (s : LoopState) :
    (retryBlock o s).nOpen ≤ s.nOpen + 1 + s.timeout := by
  unfold retryBlock
  dsimp only
  split
  · exact le_trans (retryAux_nOpen o _ _) le_rfl
  · exact le_trans (retryAux_nOpen o _ _) le_rfl

/-- Claim C1 (code bug): on the regression tick (`curr.user < prev.user`)
the delta computation performs wrapping unsigned subtraction — `usage`
becomes `2^64 - 5` — and the tick is not skipped: the division and a
fresh dispatch of the newly computed color to all three zones follow,
instead of the skip-and-retain behaviour the specification requires. -/
theorem regression_tick_dispatched :
    statCurrC1.user < statPrevC1.user ∧
    stat_entry_calc_delta statCurrC1 statPrevC1 = (18446744073709551611, 25) ∧
    eventsOfD (mainDaemon oC1 2) =
      [Ev.read_stat 0, Ev.open_kb true, Ev.set_mode true, Ev.read_stat 1,
       Ev.div 18446744073709551611 25,
       Ev.set_color true 1 18446744073709551611 25,
       Ev.set_color true 2 18446744073709551611 25,
       Ev.set_color true 3 18446744073709551611 25,
       Ev.hid_close true] := by decide

/-- Claim C2 (counterexample): in a run with two retry episodes the first
episode consumes two counted reopen attempts, and the second episode
starts with the counter at 8, not at its initial bound 10. -/
theorem retry_counter_not_reset_cex :
    episodeStarts (eventsOfD (mainDaemon oC2 3)) = [10, 8] ∧ (8 : Nat) ≠ 10 := by decide

/-- Claim C2 (amended): the retry counter is initialised to 10 once, at
startup, and across any completed stretch of the monitor loop it never
increases — it is never reset at the start of a new retry episode, so
attempts consumed earlier reduce the budget of later episodes. -/
theorem retry_counter_single_budget (o : Oracle) (f : Nat) (s s' : LoopState)
    (h : runLoop o f s = some s') :
    (initLoopState o).timeout = 10 ∧ s'.timeout ≤ s.timeout :=
  ⟨rfl, runLoop_timeout o f s s' h⟩

/-- Witness for the amended C2 theorem on a concrete completed run. -/
theorem retry_counter_single_budget_witness :
    runLoop oOpenFail 1 (initLoopState oOpenFail) = some sOpenFailFinal ∧
    ((initLoopState oOpenFail).timeout = 10 ∧
      sOpenFailFinal.timeout ≤ (initLoopState oOpenFail).timeout) :=
  ⟨by decide, retry_counter_single_budget oOpenFail 1 _ _ (by decide)⟩

/-- Claim C3 (counterexample): with every reopen failing, a single retry
episode performs 11 reopen attempts (12 `open_keyboard` calls counting
the startup open), contradicting the claimed bound of 10. -/
theorem reopen_attempt_count_cex :
    countOpens (eventsOfD (mainDaemon oExhaust 2)) - 1 = 11 ∧
    ¬(11 ≤ (10 : Nat)) := by decide

/-- Claim C3 (amended): one retry episode makes at most 11 reopen
attempts — the immediate reopen plus at most `timeout ≤ 10` counted
ones — never a 12th; when all of them fail the loop terminates with the
failure outcome `-1` after exactly 11 reopen attempts. -/
theorem retry_attempts_bounded (o : Oracle) (s : LoopState) (ht : s.timeout ≤ 10) :
    (retryBlock o s).nOpen ≤ s.nOpen + 11 ∧
    (mainDaemon oExhaust 2).map Prod.fst = some (-1) ∧
    countOpens (eventsOfD (mainDaemon oExhaust 2)) = 12 :=
  ⟨le_trans (retryBlock_nOpen o s) (by omega), by decide, by decide⟩

/-- Witness for the amended C3 theorem at the initial loop state. -/
theorem retry_attempts_bounded_witness :
    (initLoopState oExhaust).timeout ≤ 10 ∧
    ((retryBlock oExhaust (initLoopState oExhaust)).nOpen ≤
        (initLoopState oExhaust).nOpen + 11 ∧
      (mainDaemon oExhaust 2).map Prod.fst = some (-1) ∧
      countOpens (eventsOfD (mainDaemon oExhaust 2)) = 12) :=
  ⟨by decide, retry_attempts_bounded oExhaust (initLoopState oExhaust) (by decide)⟩

/-- Claim C4 (code bug): when the counters do not advance between two
reads the delta is `(0, 0)`, yet the tick is not skipped: the division
`ratio = use / tot` is performed with the zero divisor (`Ev.div 0 0`)
and the resulting color is still dispatched to all three zones. -/
theorem zero_total_division_performed :
    stat_entry_calc_delta statC4 statC4 = (0, 0) ∧
    eventsOfD (mainDaemon oC4 2) =
      [Ev.read_stat 0, Ev.open_kb true, Ev.set_mode true, Ev.read_stat 1,
       Ev.div 0 0,
       Ev.set_color true 1 0 0, Ev.set_color true 2 0 0, Ev.set_color true 3 0 0,
       Ev.hid_close true] := by decide

/-- Claim C5 (code bug): the clamp in `case 'c'` tests the getopt return
value instead of `col`, so out-of-range arguments are reduced modulo 256
instead of clamped: 300 yields hue 44 (the spec requires 255) and -1
yields hue 255 (the spec requires 0); in-range arguments and the default
hue 20 behave as specified. -/
theorem color_argument_not_clamped :
    parse_color_case 300 = 44 ∧ parse_color_spec 300 = 255 ∧
    parse_color_case (-1) = 255 ∧ parse_color_spec (-1) = 0 ∧
    parse_color_case 128 = 128 ∧ parse_color_spec 128 = 128 ∧
    hue_default = 20 ∧ (44 : Nat) ≠ 255 := by decide

/-- Claim C6 (counterexample): on retry exhaustion `main` returns `-1`,
not the exit code 1 the claim states. -/
theorem exhaustion_exit_code_cex :
    (mainDaemon oExhaust 2).map Prod.fst = some (-1) ∧ ((-1 : Int) ≠ 1) := by decide

/-- Claim C6 (amended): the daemon path returns 0 on clean shutdown and
1 on initial device-open failure; a fatal sampling failure terminates
the process with `EXIT_FAILURE` (1); retry exhaustion makes `main`
return `-1` (observed as exit status 255), not 1. -/
theorem exit_codes_amended (o₁ o₂ : Oracle) (f₁ f₂ : Nat)
    (h1 : o₁.openOk 0 = true) (hr1 : o₁.running 0 = false) (hf1 : 0 < f₁)
    (h2 : o₂.openOk 0 = false) (hf2 : 0 < f₂) :
    (mainDaemon o₁ f₁).map Prod.fst = some 0 ∧
    (mainDaemon o₂ f₂).map Prod.fst = some 1 ∧
    read_proc_stat_result (-1) = Except.error 1 ∧
    (mainDaemon oExhaust 2).map Prod.fst = some (-1) := by
  refine ⟨?_, ?_, rfl, by decide⟩
  · obtain ⟨k, rfl⟩ : ∃ k, f₁ = k + 1 := ⟨f₁ - 1, by omega⟩
    simp [mainDaemon, runLoop, initLoopState, h1, hr1]
  · obtain ⟨k, rfl⟩ : ∃ k, f₂ = k + 1 := ⟨f₂ - 1, by omega⟩
    simp [mainDaemon, runLoop, initLoopState, h2]

/-- Witness for the amended C6 theorem on concrete environments. -/
theorem exit_codes_amended_witness :
    oSuccess.openOk 0 = true ∧ oSuccess.running 0 = false ∧ 0 < 1 ∧
    oOpenFail.openOk 0 = false ∧
    ((mainDaemon oSuccess 1).map Prod.fst = some 0 ∧
      (mainDaemon oOpenFail 1).map Prod.fst = some 1 ∧
      read_proc_stat_result (-1) = Except.error 1 ∧
      (mainDaemon oExhaust 2).map Prod.fst = some (-1)) :=
  ⟨rfl, rfl, by decide, rfl,
    exit_codes_amended oSuccess oOpenFail 1 1 rfl rfl (by decide) rfl (by decide)⟩

/-- Claim C7 (counterexample): the saturation sequence of the 8-step
sweep is 0, 0, 255, 0, 255, 0, 255, 0 — step 1 repeats saturation 0 —
not the claimed strict alternation 0, 255, 0, 255, 0, 255, 0, 255. -/
theorem blink_sequence_cex :
    (List.range 8).map blink_sat = [0, 0, 255, 0, 255, 0, 255, 0] ∧
    (List.range 8).map blink_sat ≠ [0, 255, 0, 255, 0, 255, 0, 255] := by decide

/-- Claim C7 (amended): the dry-run sweep performs exactly 8 steps with
saturations 0, 0, 255, 0, 255, 0, 255, 0 at the configured hue with
value 255; on each step the converted color is dispatched to zones
1, 2, 3 and a 500 ms pause follows, and the sweep returns success. -/
theorem blink_sweep_behavior :
    blink_test (fun _ => true) hue_default =
      (0, (blinkActualSats.map blinkStepEvents).flatten) := by decide

/-- Claim C8: with `s ≠ 0` and an 8-bit hue, the residual sector of the
hue partition (`region = h / 43` at its maximal value — there is no
region beyond it, since `43 * 6 = 258 > 255`) is taken by the `default`
arm of the selection, which produces `(v, p, q)`, the standard arm of
hextant 5; it is not an error. -/
theorem hsv2rgb_residual_bucket (c : hsv_color) (hs : c.s ≠ 0) (hh : c.h ≤ 255)
    (hreg : 5 ≤ c.h / 43) :
    c.h / 43 = 5 ∧
    hsv2rgb c =
      ⟨c.v, (c.v * (255 - c.s)) / 256,
        (c.v * (255 - (c.s * ((c.h - 215) * 6)) / 256)) / 256⟩ := by
  have h5 : c.h / 43 = 5 := by omega
  refine ⟨h5, ?_⟩
  simp only [hsv2rgb, if_neg hs, h5]
  norm_num

/-- Witness for the C8 theorem at hue 255 (fully saturated, full value). -/
theorem hsv2rgb_residual_bucket_witness :
    (255 : Nat) ≠ 0 ∧ (255 : Nat) ≤ 255 ∧ 5 ≤ 255 / 43 ∧
    ((255 : Nat) / 43 = 5 ∧
      hsv2rgb ⟨255, 255, 255⟩ =
        ⟨255, (255 * (255 - 255)) / 256,
          (255 * (255 - (255 * ((255 - 215) * 6)) / 256)) / 256⟩) :=
  ⟨by decide, by decide, by decide,
    hsv2rgb_residual_bucket ⟨255, 255, 255⟩ (by decide) (by decide) (by decide)⟩

/-- Claim C9: the load-to-saturation map `round(sqrt(ratio) * 255)` is
monotonically non-decreasing on [0, 1], stays within [0, 255] there,
equals 0 at ratio 0 and equals 255 at ratio 1 (floating point idealised
over the reals). -/
theorem load_saturation_properties (r₁ r₂ : ℝ)
    (h0 : 0 ≤ r₁) (h12 : r₁ ≤ r₂) (h1 : r₂ ≤ 1) :
    load_to_saturation r₁ ≤ load_to_saturation r₂ ∧
    0 ≤ load_to_saturation r₁ ∧ load_to_saturation r₂ ≤ 255 ∧
    load_to_saturation 0 = 0 ∧ load_to_saturation 1 = 255 := by
  have hround : ∀ a b : ℝ, a ≤ b → round a ≤ round b := by
    intro a b hab
    rw [round_eq, round_eq]
    exact Int.floor_mono (by linarith)
  have h255 : ((255 : ℤ) : ℝ) = (255 : ℝ) := by norm_num
  have hone : load_to_saturation 1 = 255 := by
    unfold load_to_saturation
    rw [Real.sqrt_one, one_mul, ← h255, round_intCast]
  have hzero : load_to_saturation 0 = 0 := by
    unfold load_to_saturation
    rw [Real.sqrt_zero, zero_mul, round_zero]
  have hmono : load_to_saturation r₁ ≤ load_to_saturation r₂ :=
    hround _ _ (mul_le_mul_of_nonneg_right (Real.sqrt_le_sqrt h12) (by norm_num))
  refine ⟨hmono, ?_, ?_, hzero, hone⟩
  · have hnn : (0 : ℝ) ≤ Real.sqrt r₁ * 255 := by positivity
    have := hround 0 _ hnn
    rw [round_zero] at this
    exact this
  · have hle : Real.sqrt r₂ * 255 ≤ 255 := by
      have hs1 : Real.sqrt r₂ ≤ 1 := Real.sqrt_le_one.mpr h1
      nlinarith
    have := hround _ _ hle
    rw [show round ((255 : ℝ)) = 255 by rw [← h255, round_intCast]] at this
    exact this

/-- Witness for the C9 theorem at the endpoints ratio 0 and ratio 1. -/
theorem load_saturation_properties_witness :
    (0 : ℝ) ≤ 0 ∧ (0 : ℝ) ≤ 1 ∧ (1 : ℝ) ≤ 1 ∧
    (load_to_saturation 0 ≤ load_to_saturation 1 ∧
      0 ≤ load_to_saturation 0 ∧ load_to_saturation 1 ≤ 255 ∧
      load_to_saturation 0 = 0 ∧ load_to_saturation 1 = 255) :=
  ⟨le_rfl, zero_le_one, le_rfl,
    load_saturation_properties 0 1 le_rfl zero_le_one le_rfl⟩

/-- Claim C10: if the initial `open_keyboard` fails, the monitor loop
body is never entered — no tick is sampled (only the pre-loop read of
sample 0 occurs) and `set_color` is never called — yet `set_mode` is
still invoked once on the failed handle and the handle is closed before
the daemon path returns the failure code 1. -/
theorem open_failure_loop_never_entered (o : Oracle) (f : Nat)
    (hopen : o.openOk 0 = false) (hf : 0 < f) :
    mainDaemon o f =
      some (1, [Ev.read_stat 0, Ev.open_kb false, Ev.set_mode false,
                Ev.hid_close false]) := by
  obtain ⟨k, rfl⟩ : ∃ k, f = k + 1 := ⟨f - 1, by omega⟩
  simp [mainDaemon, runLoop, initLoopState, hopen]

/-- Witness for the C10 theorem in the concrete all-failing environment. -/
theorem open_failure_loop_never_entered_witness :
    oOpenFail.openOk 0 = false ∧ 0 < 1 ∧
    mainDaemon oOpenFail 1 =
      some (1, [Ev.read_stat 0, Ev.open_kb false, Ev.set_mode false,
                Ev.hid_close false]) :=
  ⟨rfl, by decide, open_failure_loop_never_entered oOpenFail 1 rfl (by decide)⟩

end Msiklm
